import Mathlib

/-!
Shallow embedding of the Insight-mesh VM utilization classification and
recommendation engine (src/monitoring/analyzer.py, src/monitoring/recommender.py,
src/services/ai_service.py, src/app.py).

Python dicts are modelled as structures with `Option` fields (a missing key is
`none`); `vm.get(k, d)` becomes `Option.getD`, and the raising subscript
`vm[k]` becomes a fallible lookup in the `Except String` monad (a `KeyError`
propagates as `.error`).  Numbers are modelled as `ℚ`.  Strings built with
Python f-strings are modelled by `String.append` chains.
-/

set_option maxRecDepth 4000

namespace InsightMesh

/-- Character-list prefix test: does `s` start with `pat`? -/
def startsWithChars : List Char → List Char → Bool
  | _, [] => true
  | [], _ :: _ => false
  | c :: cs, p :: ps => c = p && startsWithChars cs ps

/-- Character-list substring test, the model of the Python `pat in s` operator. -/
def hasSubChars : List Char → List Char → Bool
  | [], pat => pat.isEmpty
  | s@(_ :: rest), pat => startsWithChars s pat || hasSubChars rest pat

/-- Model of the Python `pat in s` substring operator on strings. -/
def strHasSub (s pat : String) : Bool := hasSubChars s.data pat.data

/-- Model of Python `s.lower()` (`String.toLower`, character by character). -/
def strLower (s : String) : String := ⟨s.data.map Char.toLower⟩

/-- Model of Python `s.split(sep)[0]`: the characters before the first separator. -/
def takeUntilChar : List Char → Char → List Char
  | [], _ => []
  | c :: cs, sep => if c = sep then [] else c :: takeUntilChar cs sep

/-- `s.split(sep)[0]` as a string operation. -/
def splitHead (s : String) (sep : Char) : String := ⟨takeUntilChar s.data sep⟩

/-- The four classification thresholds imported from `config.settings`
(external configuration, injected as constants per the spec). -/
structure Thresholds where
  cpuLow : ℚ
  cpuHigh : ℚ
  memLow : ℚ
  memHigh : ℚ
deriving DecidableEq, Repr

/-- The providers the analyzer can actually return from `_get_cloud_provider`
(the Python code returns the strings `'gcp'` and `'aws'`, or `None`). -/
inductive CloudProvider where
  | gcp
  | aws
deriving DecidableEq, Repr

/-- A raw VM metric snapshot dict as consumed by `VMAnalyzer.analyze`.
Every field is optional because a Python dict key may be absent. -/
structure VMDict where
  id : Option String
  type : Option String
  cpu_usage : Option ℚ
  memory_usage : Option ℚ
  cost : Option ℚ
deriving DecidableEq, Repr

/-- Utilization status values assigned by `VMAnalyzer.analyze`. -/
inductive Status where
  | optimal
  | underutilized
  | overprovisioned
  | cpu_bottlenecked
deriving DecidableEq, Repr

/-- One entry of the list returned by `VMAnalyzer.analyze`. -/
structure ClassifiedVM where
  vm_id : String
  vm_type : String
  cpu : ℚ
  memory : ℚ
  status : Status
  cost : ℚ
  recommendation : String
deriving DecidableEq, Repr

/-- `VMAnalyzer._get_cloud_provider`: substring inspection of the lowered id;
`'gcp'` is checked before `'aws'`, and there is no other marker. -/
def get_cloud_provider (vm_id : String) : Option CloudProvider :=
  if strHasSub (strLower vm_id) "gcp" then some .gcp
  else if strHasSub (strLower vm_id) "aws" then some .aws
  else none

/-- `self.instance_families`: the static provider-scoped family catalog. -/
def instance_families (p : CloudProvider) (family_name : String) : Option (List String) :=
  match p with
  | .gcp =>
    if family_name = "e2" then
      some ["e2-micro", "e2-small", "e2-medium", "e2-standard-2", "e2-standard-4"]
    else if family_name = "n1" then
      some ["n1-standard-1", "n1-standard-2", "n1-standard-4", "n1-standard-8"]
    else none
  | .aws =>
    if family_name = "t2" then
      some ["t2.nano", "t2.micro", "t2.small", "t2.medium", "t2.large"]
    else if family_name = "m5" then
      some ["m5.large", "m5.xlarge", "m5.2xlarge", "m5.4xlarge"]
    else none

/-- `self.compute_optimized_map.get(provider)`. -/
def compute_optimized_map : Option CloudProvider → Option String
  | some .gcp => some "c2-standard-4"
  | some .aws => some "c5.large"
  | none => none

/-- Index of the first occurrence of `t` (the model of Python `family.index(t)`,
only ever used under a membership guard). -/
def strIdx : List String → String → Nat
  | [], _ => 0
  | x :: r, t => if x = t then 0 else strIdx r t + 1

/-- `VMAnalyzer._suggest_instance_type`.  The family key is the token before
the first `-` for GCP names and before the first `.` for AWS names; `"custom"`
is the sentinel returned at the top of a family for direction `'up'`. -/
def suggest_instance_type (current_type : String) (direction : String)
    (provider : Option CloudProvider) : Option String :=
  match provider with
  | none => none
  | some p =>
    let family_name :=
      if p = .gcp then splitHead current_type '-' else splitHead current_type '.'
    match instance_families p family_name with
    | none => none
    | some family =>
      if current_type ∈ family then
        let current_index := strIdx family current_type
        if direction = "up" then
          if current_index < family.length - 1 then family[current_index + 1]?
          else some "custom"
        else if direction = "down" ∧ current_index > 0 then
          family[current_index - 1]?
        else none
      else none

/-- The status component of the classification if-chain in `analyze`
(lines 110-132): first match wins. -/
def classifyStatus (th : Thresholds) (cpu mem : ℚ) : Status :=
  if cpu > th.cpuHigh ∧ mem < th.memLow then .cpu_bottlenecked
  else if cpu < th.cpuLow ∧ mem < th.memLow then .underutilized
  else if cpu > th.cpuHigh ∨ mem > th.memHigh then .overprovisioned
  else .optimal

/-- The status/recommendation if-chain of `analyze` (lines 107-132), as a pure
function of the defaulted metrics, the vm type and the derived provider. -/
def statusRec (th : Thresholds) (cpu mem : ℚ) (vm_type : String)
    (provider : Option CloudProvider) : Status × String :=
  if cpu > th.cpuHigh ∧ mem < th.memLow then
    match compute_optimized_map provider with
    | some cs =>
      (.cpu_bottlenecked,
        "High CPU, low memory. Switch from " ++ vm_type ++
        " to a compute-optimized instance like " ++ cs ++ " for better performance.")
    | none =>
      (.cpu_bottlenecked,
        "High CPU, low memory. Consider switching to a compute-optimized instance.")
  else if cpu < th.cpuLow ∧ mem < th.memLow then
    match suggest_instance_type vm_type "down" provider with
    | some s =>
      (.underutilized,
        "VM is underutilized. Downsize from " ++ vm_type ++ " to " ++ s ++
        " to save costs.")
    | none =>
      (.underutilized,
        "Consider downsizing the VM to a smaller instance type to save costs.")
  else if cpu > th.cpuHigh ∨ mem > th.memHigh then
    match suggest_instance_type vm_type "up" provider with
    | some s =>
      if s = "custom" then
        (.overprovisioned,
          "High resource usage on " ++ vm_type ++
          ". Consider a custom machine type for further scaling.")
      else
        (.overprovisioned,
          "High resource usage. Upsize from " ++ vm_type ++ " to " ++ s ++
          " to improve performance.")
    | none =>
      (.overprovisioned,
        "Consider upsizing the VM to a larger instance type to improve performance.")
  else (.optimal, "No action needed.")

/-- The entry appended for one retained snapshot (lines 99-142), given its
present `id` and `type` values. -/
def mkEntry (th : Thresholds) (vm : VMDict) (i t : String) : ClassifiedVM :=
  let cpu := vm.cpu_usage.getD 0
  let mem := vm.memory_usage.getD 0
  let cost := vm.cost.getD 0
  let provider := get_cloud_provider i
  let sr := statusRec th cpu mem t provider
  ⟨i, t, cpu, mem, sr.1, cost, sr.2⟩

/-- The entry for a snapshot, defaulting the (required) id and type; equal to
the loop entry whenever both keys are present. -/
def classifyOne (th : Thresholds) (vm : VMDict) : ClassifiedVM :=
  mkEntry th vm (vm.id.getD "") (vm.type.getD "")

/-- The main loop of `analyze` (lines 94-143): first-seen-wins dedup on
`vm["id"]` (a KeyError when absent), then classification; the entry build
reads `vm["type"]` (a KeyError when absent). -/
def analyzeLoop (th : Thresholds) : List VMDict → List String → Except String (List ClassifiedVM)
  | [], _ => .ok []
  | vm :: rest, seen =>
    match vm.id with
    | none => .error "KeyError: id"
    | some i =>
      if i ∈ seen then analyzeLoop th rest seen
      else
        match vm.type with
        | none => .error "KeyError: type"
        | some t =>
          match analyzeLoop th rest (i :: seen) with
          | .error e => .error e
          | .ok tail => .ok (mkEntry th vm i t :: tail)

/-- The guard of line 55: a snapshot with a present, truthy (non-empty) id
whose lowered id contains `"gcp"`. -/
def gcpMark (vm : VMDict) : Bool :=
  match vm.id with
  | some s => decide (s ≠ "") && strHasSub (strLower s) "gcp"
  | none => false

/-- The filter of line 59: `"gcp" in vm.get("id", "").lower()`. -/
def gcpFilter (vm : VMDict) : Bool :=
  strHasSub (strLower (vm.id.getD "")) "gcp"

/-- The four hard-coded demo VMs appended in a GCP context (lines 62-92). -/
def demoVMs : List VMDict :=
  [ ⟨some "gcp-vm-demo-1", some "e2-medium", some 5, some 10, some (25.50 : ℚ)⟩,
    ⟨some "gcp-vm-demo-2", some "n1-standard-1", some 92, some 85, some (30.10 : ℚ)⟩,
    ⟨some "gcp-vm-demo-3", some "n1-standard-2", some 95, some 20, some (60.20 : ℚ)⟩,
    ⟨some "gcp-vm-demo-4", some "n1-standard-8", some 98, some 90, some (240.80 : ℚ)⟩ ]

/-- `VMAnalyzer.analyze` (lines 50-143): the GCP-context demo injection of
lines 54-92 followed by the dedup/classification loop. -/
def analyze (th : Thresholds) (metrics : List VMDict) : Except String (List ClassifiedVM) :=
  let metrics' :=
    if metrics.any gcpMark then metrics.filter gcpFilter ++ demoVMs else metrics
  analyzeLoop th metrics' []

/-- The defaulted id used by the dedup (well-defined on snapshots whose id is
present). -/
def idD (vm : VMDict) : String := vm.id.getD ""

/-- Specification-side first-occurrence dedup by id, mirroring the seen-set of
the claim wording ("keeping the first occurrence in input order"). -/
def dedupFirstAux : List VMDict → List String → List VMDict
  | [], _ => []
  | vm :: rest, seen =>
    if idD vm ∈ seen then dedupFirstAux rest seen
    else vm :: dedupFirstAux rest (idD vm :: seen)

/-- First-occurrence dedup by id. -/
def dedupFirst (ms : List VMDict) : List VMDict := dedupFirstAux ms []

/-- The seen-ids accumulator after scanning a list. -/
def seenAfter : List VMDict → List String → List String
  | [], seen => seen
  | vm :: rest, seen =>
    seenAfter rest (if idD vm ∈ seen then seen else idD vm :: seen)

/-! ## VMRecommender.generate_cost_report (src/monitoring/recommender.py 80-131) -/

/-- An element of `self.vm_metrics` as read by `generate_cost_report`: the
method only consults the keys `vm_id`, `vm_type`, `cpu`, `memory`, `cost`
(all through `.get` with a default). -/
structure CostVM where
  vm_id : Option String
  vm_type : Option String
  cpu : Option ℚ
  memory : Option ℚ
  cost : Option ℚ
deriving DecidableEq, Repr

/-- One `{"vm_id": ..., "cost": ...}` entry of `top_cost_drivers`. -/
structure Driver where
  vm_id : String
  cost : ℚ
deriving DecidableEq, Repr

/-- The `optimization_savings` object. -/
structure OptSavings where
  amount : ℚ
  percentage : ℚ
  vms_affected : Nat
deriving DecidableEq, Repr

/-- The value returned by `generate_cost_report`.  `cost_breakdown` is an
insertion-ordered association list, the model of a Python dict. -/
structure CostReport where
  total_monthly_cost : ℚ
  optimization_savings : Option OptSavings
  cost_breakdown : List (String × ℚ)
  top_cost_drivers : List Driver
deriving DecidableEq, Repr

/-- `vm.get('vm_type', 'Unknown')`. -/
def typeD (vm : CostVM) : String := vm.vm_type.getD "Unknown"

/-- `vm.get('cost', 0)`. -/
def costD (vm : CostVM) : ℚ := vm.cost.getD 0

/-- The `cpu < 30 and memory < 30` filter of lines 95-96 (keys defaulted to 0). -/
def underutilBool (vm : CostVM) : Bool :=
  decide (vm.cpu.getD 0 < 30) && decide (vm.memory.getD 0 < 30)

/-- `cost_breakdown` update for one vm: `cb[t] = 0` on a fresh key, then
`cb[t] += cost`; a Python dict keeps the insertion position of existing keys. -/
def addToKey : List (String × ℚ) → String → ℚ → List (String × ℚ)
  | [], t, c => [(t, c)]
  | (k, v) :: rest, t, c =>
    if k = t then (k, v + c) :: rest else (k, v) :: addToKey rest t c

/-- One step of the `cost_breakdown` loop (lines 104-109). -/
def bdStep (cb : List (String × ℚ)) (vm : CostVM) : List (String × ℚ) :=
  addToKey cb (typeD vm) (costD vm)

/-- Stable descending insertion (by `cost`): a new element goes before the
first element whose cost it reaches, hence after every earlier equal-cost
element. -/
def insDesc (x : Driver) : List Driver → List Driver
  | [] => [x]
  | y :: ys => if x.cost ≥ y.cost then x :: y :: ys else y :: insDesc x ys

/-- The model of Python `sorted(..., key=cost, reverse=True)`: a stable
descending sort by `cost`. -/
def sortDesc (l : List Driver) : List Driver := l.foldr insDesc []

/-- The `{"vm_id": ..., "cost": ...}` projection of line 113. -/
def driversOf (ms : List CostVM) : List Driver :=
  ms.map fun vm => ⟨vm.vm_id.getD "Unknown", vm.cost.getD 0⟩

/-- `total_monthly_cost` (line 91). -/
def totalOf (ms : List CostVM) : ℚ := (ms.map costD).sum

/-- `potential_savings` (lines 98-101): each vm passing the `cpu < 30 and
memory < 30` filter contributes `cost * 0.3`. -/
def potentialSavings (ms : List CostVM) : ℚ :=
  ((ms.filter underutilBool).map (fun vm => costD vm * (3 / 10 : ℚ))).sum

/-- `VMRecommender.generate_cost_report` (lines 80-131). -/
def generate_cost_report (ms : List CostVM) : CostReport :=
  if ms.isEmpty then
    { total_monthly_cost := 0, optimization_savings := none,
      cost_breakdown := [], top_cost_drivers := [] }
  else
    let total_monthly_cost := totalOf ms
    let underutilized_vms := ms.filter underutilBool
    let potential_savings := potentialSavings ms
    let cost_breakdown := ms.foldl bdStep []
    let top_cost_drivers := (sortDesc (driversOf ms)).take 5
    let optimization_savings :=
      if potential_savings > 0 then
        some { amount := potential_savings,
               percentage :=
                 if total_monthly_cost > 0 then
                   potential_savings / total_monthly_cost * 100
                 else 0,
               vms_affected := underutilized_vms.length }
      else none
    { total_monthly_cost, optimization_savings, cost_breakdown, top_cost_drivers }

/-- How a raw snapshot dict (keys `id`, `type`, `cpu_usage`, `memory_usage`,
`cost`) looks to `generate_cost_report`, which reads the keys `vm_id`,
`vm_type`, `cpu`, `memory`, `cost`: only `cost` is shared. -/
def rawToCostVM (vm : VMDict) : CostVM :=
  { vm_id := none, vm_type := none, cpu := none, memory := none, cost := vm.cost }

/-- The cost report as the dashboard obtains it (src/app.py line 38):
`generate_cost_report` over the raw collected metrics. -/
def dashboard_cost_report (metrics : List VMDict) : CostReport :=
  generate_cost_report (metrics.map rawToCostVM)

/-! ## The AI enhancer layer (src/services/ai_service.py) and the dashboard
(src/app.py 21-60).  Each `GeminiAIService` method issues one network call
whose outcome we model as an oracle value: a well-typed payload, a response
that fails JSON parsing (`badJson`), or a raised transport error (`err`).
Every method catches both failure modes internally and returns a static
fallback, so none of them ever raises. -/

/-- Outcome of one enhancer network call. -/
inductive AIResp (α : Type) where
  | ok (a : α)
  | badJson
  | err
deriving DecidableEq, Repr

/-- The insights object (the keys of the static fallbacks of
`get_infrastructure_insights`). -/
structure Insights where
  health_score : ℚ
  optimization_opportunities : List String
  cost_optimization_potential : String
  security_recommendations : List String
  scalability_insights : String
  disaster_recovery_notes : String
  performance_tips : List String
  summary : String
deriving DecidableEq, Repr

/-- The `json.JSONDecodeError` fallback of `get_infrastructure_insights`
(ai_service.py 134-143). -/
def aiInsightsBadJson : Insights :=
  { health_score := 7,
    optimization_opportunities :=
      ["Enable autoscaling", "Right-size instances", "Review storage types"],
    cost_optimization_potential := "15-25%",
    security_recommendations := ["Enable monitoring", "Review access policies"],
    scalability_insights := "Consider implementing auto-scaling groups",
    disaster_recovery_notes := "Implement cross-region backups",
    performance_tips := ["Monitor resource utilization", "Optimize database queries"],
    summary := "Infrastructure shows good potential for optimization" }

/-- The outer-exception fallback of `get_infrastructure_insights`
(ai_service.py 147-156). -/
def aiInsightsErr : Insights :=
  { health_score := 7,
    optimization_opportunities := ["Review current setup"],
    cost_optimization_potential := "Unknown",
    security_recommendations := ["Regular security audits"],
    scalability_insights := "Review current scaling policies",
    disaster_recovery_notes := "Implement backup strategies",
    performance_tips := ["Monitor key metrics"],
    summary := "Unable to analyze due to technical issues" }

/-- The deterministic baseline of `VMRecommender.get_infrastructure_insights`
(recommender.py 41-46), used only when the AI path is not taken at all. -/
def basicInsights : Insights :=
  { health_score := 7,
    optimization_opportunities :=
      ["Review resource utilization", "Consider cost optimization"],
    cost_optimization_potential := "10-20%",
    security_recommendations := [],
    scalability_insights := "",
    disaster_recovery_notes := "",
    performance_tips := [],
    summary := "Basic analysis available - enable AI for detailed insights" }

/-- `GeminiAIService.get_infrastructure_insights`. -/
def ai_get_infrastructure_insights (r : AIResp Insights) : Insights :=
  match r with
  | .ok i => i
  | .badJson => aiInsightsBadJson
  | .err => aiInsightsErr

/-- The trend triple of the predictions object. -/
structure TrendTriple where
  cpu_trend : String
  memory_trend : String
  cost_trend : String
deriving DecidableEq, Repr

/-- One scaling recommendation of the predictions fallback. -/
structure ScalingRec where
  vm_id : String
  recommendation : String
deriving DecidableEq, Repr

/-- The risk assessment object. -/
structure RiskAssessment where
  risk_level : String
  issues : List String
deriving DecidableEq, Repr

/-- The future-trend predictions object. -/
structure Trends where
  usage_trend_prediction : TrendTriple
  next_month_cost_projection : ℚ
  potential_bottlenecks : List String
  scaling_recommendations : List ScalingRec
  proactive_optimizations : List String
  risk_assessment : RiskAssessment
  future_tech_suggestions : List String
  confidence_score : ℚ
deriving DecidableEq, Repr

/-- The outer-exception fallback of `predict_future_trends`
(ai_service.py 226-235). -/
def aiTrendsErr : Trends :=
  { usage_trend_prediction :=
      { cpu_trend := "unknown", memory_trend := "unknown", cost_trend := "unknown" },
    next_month_cost_projection := 0,
    potential_bottlenecks := [],
    scaling_recommendations := [],
    proactive_optimizations := [],
    risk_assessment := { risk_level := "Unknown", issues := [] },
    future_tech_suggestions := [],
    confidence_score := 0 }

/-- The `json.JSONDecodeError` fallback of `predict_future_trends`
(ai_service.py 208-222); it reads `vm["id"]` of the first three metrics, so a
missing id there raises inside the outer try and yields the error fallback. -/
def aiTrendsBadJson (vm_metrics : List VMDict) : Trends :=
  if (vm_metrics.take 3).all (fun vm => vm.id.isSome) then
    { usage_trend_prediction :=
        { cpu_trend := "stable", memory_trend := "increasing", cost_trend := "stable" },
      next_month_cost_projection :=
        ((vm_metrics.map (fun vm => vm.cost.getD 0)).sum) * (1.05 : ℚ),
      potential_bottlenecks := ["Memory constraints on high-usage VMs"],
      scaling_recommendations :=
        (vm_metrics.take 3).map
          (fun vm => { vm_id := vm.id.getD "", recommendation := "Monitor closely" }),
      proactive_optimizations := ["Enable auto-scaling", "Review instance types"],
      risk_assessment :=
        { risk_level := "Medium", issues := ["Some VMs running at high utilization"] },
      future_tech_suggestions :=
        ["Consider newer generation instances", "Evaluate serverless options"],
      confidence_score := 75 }
  else aiTrendsErr

/-- `GeminiAIService.predict_future_trends`. -/
def ai_predict_future_trends (r : AIResp Trends) (vm_metrics : List VMDict) : Trends :=
  match r with
  | .ok t => t
  | .badJson => aiTrendsBadJson vm_metrics
  | .err => aiTrendsErr

/-- An immediate action item of the plan. -/
structure ActionItem where
  action : String
  impact : String
  effort_level : String
deriving DecidableEq, Repr

/-- A short-term plan item. -/
structure ShortTermItem where
  action : String
  timeline : String
  expected_benefit : String
deriving DecidableEq, Repr

/-- A long-term strategy item. -/
structure LongTermItem where
  action : String
  timeline : String
  strategic_value : String
deriving DecidableEq, Repr

/-- The optimization plan object. -/
structure Plan where
  immediate_actions : List ActionItem
  short_term_plan : List ShortTermItem
  long_term_strategy : List LongTermItem
  cost_optimization_priorities : List String
  performance_priorities : List String
  security_enhancements : List String
  automation_opportunities : List String
  overall_roi_estimate : String
deriving DecidableEq, Repr

/-- The `json.JSONDecodeError` fallback of `generate_optimization_plan`
(ai_service.py 286-302). -/
def aiPlanBadJson : Plan :=
  { immediate_actions :=
      [ { action := "Review high-usage VMs", impact := "High", effort_level := "Low" },
        { action := "Enable monitoring alerts", impact := "Medium", effort_level := "Low" } ],
    short_term_plan :=
      [ { action := "Right-size overprovisioned VMs", timeline := "1-2 weeks",
          expected_benefit := "15-20% cost reduction" } ],
    long_term_strategy :=
      [ { action := "Implement auto-scaling", timeline := "2-3 months",
          strategic_value := "Dynamic resource optimization" } ],
    cost_optimization_priorities :=
      ["Right-size instances", "Review storage types", "Consider reserved instances"],
    performance_priorities := ["Address CPU bottlenecks", "Optimize memory usage"],
    security_enhancements := ["Enable encryption", "Review access policies"],
    automation_opportunities := ["Automated scaling", "Cost monitoring alerts"],
    overall_roi_estimate := "Expected 20-30% cost reduction with improved performance" }

/-- The outer-exception fallback of `generate_optimization_plan`
(ai_service.py 306-315). -/
def aiPlanErr : Plan :=
  { immediate_actions := [], short_term_plan := [], long_term_strategy := [],
    cost_optimization_priorities := [], performance_priorities := [],
    security_enhancements := [], automation_opportunities := [],
    overall_roi_estimate := "Unable to generate estimate" }

/-- `GeminiAIService.generate_optimization_plan`. -/
def ai_generate_optimization_plan (r : AIResp Plan) : Plan :=
  match r with
  | .ok p => p
  | .badJson => aiPlanBadJson
  | .err => aiPlanErr

/-- `GeminiAIService.enhance_vm_recommendations`: a parsed list is returned
as-is; a parse failure, a non-list payload or a raised exception all return
the basic analysis. -/
def ai_enhance_vm_recommendations (r : AIResp (List ClassifiedVM))
    (basic_analysis : List ClassifiedVM) : List ClassifiedVM :=
  match r with
  | .ok l => l
  | .badJson => basic_analysis
  | .err => basic_analysis

/-- `VMRecommender.generate` (recommender.py 17-30): the AI path is taken only
when the service is usable and `vm_metrics` is non-empty. -/
def recommender_generate (ai : Bool) (vm_metrics : List VMDict)
    (r : AIResp (List ClassifiedVM)) (analysis : List ClassifiedVM) : List ClassifiedVM :=
  if ai && !vm_metrics.isEmpty then ai_enhance_vm_recommendations r analysis
  else analysis

/-- `VMRecommender.get_infrastructure_insights` (recommender.py 32-46). -/
def recommender_insights (ai : Bool) (vm_metrics : List VMDict)
    (r : AIResp Insights) : Insights :=
  if ai && !vm_metrics.isEmpty then ai_get_infrastructure_insights r
  else basicInsights

/-- The dashboard report (the template context of src/app.py 51-60).
`future_insights` and `optimization_plan` start as `None` and are only
assigned when the global AI service exists. -/
structure Report where
  recommendations : List ClassifiedVM
  insights : Insights
  cost_report : CostReport
  future_insights : Option Trends
  optimization_plan : Option Plan
deriving DecidableEq, Repr

/-- The report assembly of the `dashboard` view (src/app.py 29-60), given the
precomputed analysis and one oracle per enhancer network call.  The cost
report never consults the enhancer; `predict_future_trends` and
`generate_optimization_plan` never raise (they catch internally), so the
shared try block around them always completes and assigns both fields. -/
def dashboardReport (ai : Bool)
    (rEnh : AIResp (List ClassifiedVM)) (rIns : AIResp Insights)
    (rTr : AIResp Trends) (rPl : AIResp Plan)
    (metrics : List VMDict) (analysis : List ClassifiedVM) : Report :=
  { recommendations := recommender_generate ai metrics rEnh analysis,
    insights := recommender_insights ai metrics rIns,
    cost_report := dashboard_cost_report metrics,
    future_insights := if ai then some (ai_predict_future_trends rTr metrics) else none,
    optimization_plan := if ai then some (ai_generate_optimization_plan rPl) else none }

/-- Modelled from the spec: the `config.settings` threshold module is not part
of the analyzed sources.  §8 of the spec fixes `CPU_HIGH = 80` and
`MEMORY_LOW = 30`; `CPU_LOW = 30` and `MEMORY_HIGH = 80` are chosen here as
a concrete external configuration for witnesses (all claim theorems are
parametric in the thresholds). -/
def th0 : Thresholds := ⟨30, 80, 30, 80⟩

/-- The one-snapshot input used to instantiate C2. -/
def msC2 : List VMDict := [⟨some "aws-1", some "t2.micro", some 95, some 10, some 10⟩]

/-- The classified output of `analyze th0 msC2`. -/
def lC2 : List ClassifiedVM :=
  [⟨"aws-1", "t2.micro", 95, 10, .cpu_bottlenecked, 10,
    "High CPU, low memory. Switch from t2.micro to a compute-optimized instance like c5.large for better performance."⟩]

/-- The one-snapshot cost input used to instantiate C4. -/
def msC4 : List CostVM := [⟨some "a", some "t", some 10, some 10, some 100⟩]

/-- Dict read on the breakdown association list (the model of `cb[t]`). -/
def bdLookup : List (String × ℚ) → String → Option ℚ
  | [], _ => none
  | (k, v) :: rest, t => if t = k then some v else bdLookup rest t

/-- The exact cost sum of the snapshots of one vm type. -/
def sumTypeCost (ms : List CostVM) (t : String) : ℚ :=
  ((ms.filter (fun vm => typeD vm == t)).map costD).sum

/-- Specification-side first-appearance dedup on strings (the key order of a
Python dict built by insertion). -/
def dedupStrAux : List String → List String → List String
  | [], _ => []
  | t :: rest, seen =>
    if t ∈ seen then dedupStrAux rest seen else t :: dedupStrAux rest (t :: seen)

/-- First-appearance order of a list of strings. -/
def dedupStr (l : List String) : List String := dedupStrAux l []

/-- Stable descending insertion on index-tagged drivers (same comparison as
`insDesc`, on the payload cost). -/
def insDescT (x : ℕ × Driver) : List (ℕ × Driver) → List (ℕ × Driver)
  | [] => [x]
  | y :: ys => if x.2.cost ≥ y.2.cost then x :: y :: ys else y :: insDescT x ys

/-- The tagged stable descending sort. -/
def sortDescT (l : List (ℕ × Driver)) : List (ℕ × Driver) := l.foldr insDescT []

/-- Strict "comes before" order of a stable descending sort on tagged
drivers: strictly larger cost, or equal cost and an earlier original
position. -/
def relT (a b : ℕ × Driver) : Prop :=
  b.2.cost < a.2.cost ∨ (a.2.cost = b.2.cost ∧ a.1 < b.1)

/-- A sample classified entry for the dashboard claims. -/
def cSample : ClassifiedVM := ⟨"aws-9", "t2.small", 40, 40, .optimal, 12, "No action needed."⟩

/-- A sample raw metric snapshot for the dashboard claims. -/
def mSample : VMDict := ⟨some "aws-9", some "t2.small", some 40, some 40, some 12⟩

/-- A three-snapshot input with one duplicated id, used to instantiate C1. -/
def msC1w : List VMDict :=
  [⟨some "aws-1", some "t2.micro", some 95, some 10, some 10⟩,
   ⟨some "aws-2", some "m5.large", some 10, some 10, some 20⟩,
   ⟨some "aws-1", some "t2.large", some 50, some 50, some 30⟩]

/-- A one-snapshot gcp-marked input, used to instantiate C10. -/
def msC10w : List VMDict := [⟨some "gcp-x", some "e2-micro", some 50, some 50, some 1⟩]

/-! ## Basic lemmas -/

/-- Appending to a non-empty string keeps it non-empty. -/
theorem append_ne_empty : ∀ (a b : String), a ≠ "" → a ++ b ≠ ""
  | ⟨da⟩, ⟨db⟩, ha, h => by
    have h2 : da ++ db = ([] : List Char) := congrArg String.data h
    rcases List.append_eq_nil.mp h2 with ⟨h3, -⟩
    exact ha (by cases h3; rfl)

/-- The status component of the classification chain ignores the provider and
the suggestion machinery. -/
theorem statusRec_fst (th : Thresholds) (cpu mem : ℚ) (ty : String)
    (prov : Option CloudProvider) :
    (statusRec th cpu mem ty prov).1 = classifyStatus th cpu mem := by
  unfold statusRec classifyStatus
  split_ifs
  · cases compute_optimized_map prov <;> rfl
  · cases suggest_instance_type ty "down" prov <;> rfl
  · rcases suggest_instance_type ty "up" prov with _ | s
    · rfl
    · by_cases hs : s = "custom" <;> simp [hs]
  · rfl

/-- Every recommendation string produced by the classification chain is
non-empty. -/
theorem statusRec_snd_ne (th : Thresholds) (cpu mem : ℚ) (ty : String)
    (prov : Option CloudProvider) : (statusRec th cpu mem ty prov).2 ≠ "" := by
  unfold statusRec
  split_ifs
  · rcases compute_optimized_map prov with _ | cs
    · show "High CPU, low memory. Consider switching to a compute-optimized instance." ≠ ""
      decide
    · show "High CPU, low memory. Switch from " ++ ty ++
        " to a compute-optimized instance like " ++ cs ++ " for better performance." ≠ ""
      exact append_ne_empty _ _ (append_ne_empty _ _ (append_ne_empty _ _
        (append_ne_empty _ _ (by decide))))
  · rcases suggest_instance_type ty "down" prov with _ | s
    · show "Consider downsizing the VM to a smaller instance type to save costs." ≠ ""
      decide
    · show "VM is underutilized. Downsize from " ++ ty ++ " to " ++ s ++ " to save costs." ≠ ""
      exact append_ne_empty _ _ (append_ne_empty _ _ (append_ne_empty _ _
        (append_ne_empty _ _ (by decide))))
  · rcases suggest_instance_type ty "up" prov with _ | s
    · show "Consider upsizing the VM to a larger instance type to improve performance." ≠ ""
      decide
    · show (if s = "custom" then
          ((Status.overprovisioned : Status),
            "High resource usage on " ++ ty ++
              ". Consider a custom machine type for further scaling.")
        else
          (Status.overprovisioned,
            "High resource usage. Upsize from " ++ ty ++ " to " ++ s ++
              " to improve performance.")).2 ≠ ""
      by_cases hs : s = "custom"
      · rw [if_pos hs]
        exact append_ne_empty _ _ (append_ne_empty _ _ (by decide))
      · rw [if_neg hs]
        exact append_ne_empty _ _ (append_ne_empty _ _ (append_ne_empty _ _
          (append_ne_empty _ _ (by decide))))
  · show "No action needed." ≠ ""
    decide

/-- First-match-wins characterization of the four statuses. -/
theorem classifyStatus_iff (th : Thresholds) (cpu mem : ℚ) :
    (classifyStatus th cpu mem = .cpu_bottlenecked ↔ (cpu > th.cpuHigh ∧ mem < th.memLow))
  ∧ (classifyStatus th cpu mem = .underutilized ↔
      (¬(cpu > th.cpuHigh ∧ mem < th.memLow) ∧ (cpu < th.cpuLow ∧ mem < th.memLow)))
  ∧ (classifyStatus th cpu mem = .overprovisioned ↔
      (¬(cpu > th.cpuHigh ∧ mem < th.memLow) ∧ ¬(cpu < th.cpuLow ∧ mem < th.memLow) ∧
        (cpu > th.cpuHigh ∨ mem > th.memHigh)))
  ∧ (classifyStatus th cpu mem = .optimal ↔
      (¬(cpu > th.cpuHigh ∧ mem < th.memLow) ∧ ¬(cpu < th.cpuLow ∧ mem < th.memLow) ∧
        ¬(cpu > th.cpuHigh ∨ mem > th.memHigh))) := by
  unfold classifyStatus
  split_ifs with h1 h2 h3 <;> simp_all

/-- Every entry of a successful classification run carries the status of its
own stored metrics and a non-empty recommendation. -/
theorem analyzeLoop_entries (th : Thresholds) :
    ∀ (ms : List VMDict) (seen : List String) (l : List ClassifiedVM),
      analyzeLoop th ms seen = .ok l →
      ∀ c ∈ l, c.status = classifyStatus th c.cpu c.memory ∧ c.recommendation ≠ ""
  | [], _, l, h, c, hc => by
    simp only [analyzeLoop] at h
    cases h
    simp at hc
  | vm :: rest, seen, l, h, c, hc => by
    rcases hid : vm.id with _ | i <;> simp only [analyzeLoop, hid] at h
    · cases h
    · by_cases hmem : i ∈ seen
      · rw [if_pos hmem] at h
        exact analyzeLoop_entries th rest seen l h c hc
      · rw [if_neg hmem] at h
        rcases hty : vm.type with _ | t <;> simp only [hty] at h
        · cases h
        · rcases hrec : analyzeLoop th rest (i :: seen) with e | tail <;>
            simp only [hrec] at h
          · cases h
          · cases h
            rcases List.mem_cons.mp hc with hc | hc
            · subst hc
              refine ⟨?_, ?_⟩
              · simpa [mkEntry] using
                  statusRec_fst th (vm.cpu_usage.getD 0) (vm.memory_usage.getD 0) t
                    (get_cloud_provider i)
              · simpa [mkEntry] using
                  statusRec_snd_ne th (vm.cpu_usage.getD 0) (vm.memory_usage.getD 0) t
                    (get_cloud_provider i)
            · exact analyzeLoop_entries th rest (i :: seen) tail hrec c hc

/-! ## Claims -/

/-- C2: for every retained snapshot the utilization status is decided by
first-match-wins precedence (cpu_bottlenecked, then underutilized, then
overprovisioned, else optimal), and in particular `cpu = 95, memory = 10`
with `CPU_HIGH = 80, MEMORY_LOW = 30` is `cpu_bottlenecked`, never
`overprovisioned`. -/
theorem claim_C2 (th : Thresholds) (ms : List VMDict) (l : List ClassifiedVM)
    (h : analyze th ms = .ok l) :
    (∀ c ∈ l,
        (c.status = .cpu_bottlenecked ↔ (c.cpu > th.cpuHigh ∧ c.memory < th.memLow))
      ∧ (c.status = .underutilized ↔
          (¬(c.cpu > th.cpuHigh ∧ c.memory < th.memLow) ∧
            (c.cpu < th.cpuLow ∧ c.memory < th.memLow)))
      ∧ (c.status = .overprovisioned ↔
          (¬(c.cpu > th.cpuHigh ∧ c.memory < th.memLow) ∧
            ¬(c.cpu < th.cpuLow ∧ c.memory < th.memLow) ∧
            (c.cpu > th.cpuHigh ∨ c.memory > th.memHigh)))
      ∧ (c.status = .optimal ↔
          (¬(c.cpu > th.cpuHigh ∧ c.memory < th.memLow) ∧
            ¬(c.cpu < th.cpuLow ∧ c.memory < th.memLow) ∧
            ¬(c.cpu > th.cpuHigh ∨ c.memory > th.memHigh))))
  ∧ (∀ th' : Thresholds, th'.cpuHigh = 80 → th'.memLow = 30 →
      classifyStatus th' 95 10 = .cpu_bottlenecked ∧
      classifyStatus th' 95 10 ≠ .overprovisioned) := by
  constructor
  · intro c hc
    unfold analyze at h
    have hst := (analyzeLoop_entries th _ _ l h c hc).1
    rw [hst]
    exact classifyStatus_iff th c.cpu c.memory
  · intro th' h80 h30
    have hcond : (95 : ℚ) > th'.cpuHigh ∧ (10 : ℚ) < th'.memLow := by
      rw [h80, h30]; norm_num
    constructor
    · unfold classifyStatus
      rw [if_pos hcond]
    · unfold classifyStatus
      rw [if_pos hcond]
      decide

/-- C2 witness: the theorem instantiated at a concrete run. -/
theorem claim_C2_witness :
    classifyStatus th0 95 10 = .cpu_bottlenecked ∧
    classifyStatus th0 95 10 ≠ .overprovisioned :=
  (claim_C2 th0 msC2 lC2 rfl).2 th0 rfl rfl

/-- C8 (code bug): the spec requires missing input fields to be resolved to
safe defaults, but `analyze` raises a `KeyError` when `id` (line 95,
`vm["id"]`) or `type` (line 136, `vm["type"]`) is absent, although the
safely-defaulted `vm.get("id")` / `vm.get("type")` values were already
computed; metric fields and the empty input are handled as claimed. -/
theorem claim_C8_bug :
    analyze th0 [⟨none, some "t2.micro", some 50, some 50, some 10⟩] = .error "KeyError: id"
  ∧ analyze th0 [⟨some "aws-1", none, some 50, some 50, some 10⟩] = .error "KeyError: type"
  ∧ analyze th0 [] = .ok []
  ∧ analyze th0 [⟨some "aws-1", some "t2.micro", none, none, none⟩] =
      .ok [⟨"aws-1", "t2.micro", 0, 0, .underutilized, 0,
        "VM is underutilized. Downsize from t2.micro to t2.nano to save costs."⟩] :=
  ⟨rfl, rfl, rfl, rfl⟩

/-- C9 counterexample: the claim says an Azure-marked id yields the Azure
provider, but `_get_cloud_provider` recognizes no Azure marker at all — an
Azure-marked id falls through to `None` (Unknown). -/
theorem claim_C9_counterexample :
    get_cloud_provider "Azure-vm-1" = none ∧ get_cloud_provider "azure-vm-1" = none := by
  decide

/-! ## Dedup lemmas for C1, C7 and C10 -/

/-- When every snapshot carries an id and a type, the classification loop
succeeds and returns exactly the first-occurrence dedup, classified in order. -/
theorem analyzeLoop_eq (th : Thresholds) :
    ∀ (ms : List VMDict) (seen : List String),
      (∀ vm ∈ ms, vm.id.isSome ∧ vm.type.isSome) →
      analyzeLoop th ms seen = .ok ((dedupFirstAux ms seen).map (classifyOne th))
  | [], _, _ => rfl
  | vm :: rest, seen, h => by
    obtain ⟨hid, hty⟩ := h vm (List.mem_cons_self _ _)
    have hrest : ∀ v ∈ rest, v.id.isSome ∧ v.type.isSome :=
      fun v hv => h v (List.mem_cons_of_mem _ hv)
    rcases hi : vm.id with _ | i
    · rw [hi] at hid; cases hid
    · rcases ht : vm.type with _ | t
      · rw [ht] at hty; cases hty
      · simp only [analyzeLoop, dedupFirstAux, idD, hi, ht, Option.getD_some]
        by_cases hmem : i ∈ seen
        · simp only [if_pos hmem]
          exact analyzeLoop_eq th rest seen hrest
        · simp only [if_neg hmem, analyzeLoop_eq th rest (i :: seen) hrest,
            List.map_cons]
          simp only [classifyOne, idD, hi, ht, Option.getD_some]
  termination_by ms => ms.length

/-- The dedup result is a sublist of the input: classification adds, removes
and reorders nothing beyond dropping later duplicates. -/
theorem dedupFirstAux_sublist : ∀ (ms : List VMDict) (seen : List String),
    List.Sublist (dedupFirstAux ms seen) ms
  | [], _ => List.nil_sublist _
  | vm :: rest, seen => by
    simp only [dedupFirstAux]
    by_cases hmem : idD vm ∈ seen
    · rw [if_pos hmem]
      exact (dedupFirstAux_sublist rest seen).cons _
    · rw [if_neg hmem]
      exact (dedupFirstAux_sublist rest _).cons₂ _

/-- Scanning an appended list splits into two scans. -/
theorem dedupFirstAux_append : ∀ (A B : List VMDict) (seen : List String),
    dedupFirstAux (A ++ B) seen = dedupFirstAux A seen ++ dedupFirstAux B (seenAfter A seen)
  | [], _, _ => rfl
  | vm :: rest, B, seen => by
    simp only [List.cons_append, dedupFirstAux, seenAfter, List.append_eq]
    by_cases hmem : idD vm ∈ seen
    · simp only [if_pos hmem]
      exact dedupFirstAux_append rest B seen
    · simp only [if_neg hmem]
      rw [dedupFirstAux_append rest B (idD vm :: seen), List.cons_append]

/-- Membership in the seen-ids accumulator. -/
theorem mem_seenAfter (x : String) : ∀ (A : List VMDict) (seen : List String),
    x ∈ seenAfter A seen ↔ x ∈ seen ∨ x ∈ A.map idD
  | [], seen => by simp [seenAfter]
  | vm :: rest, seen => by
    simp only [seenAfter, List.map_cons, List.mem_cons]
    by_cases hmem : idD vm ∈ seen
    · rw [if_pos hmem, mem_seenAfter x rest seen]
      have hx : x = idD vm → x ∈ seen := fun he => he ▸ hmem
      tauto
    · rw [if_neg hmem, mem_seenAfter x rest (idD vm :: seen)]
      simp only [List.mem_cons]
      tauto

/-- A block of pairwise-fresh ids passes through the dedup untouched. -/
theorem dedupFirstAux_fresh : ∀ (B : List VMDict) (seen : List String),
    (B.map idD).Nodup → (∀ b ∈ B, idD b ∉ seen) → dedupFirstAux B seen = B
  | [], _, _, _ => rfl
  | vm :: rest, seen, hnd, hfresh => by
    have hvm : idD vm ∉ seen := hfresh vm (List.mem_cons_self _ _)
    simp only [dedupFirstAux, if_neg hvm]
    congr 1
    apply dedupFirstAux_fresh rest (idD vm :: seen)
    · exact (List.nodup_cons.mp (by simpa using hnd)).2
    · intro b hb
      simp only [List.mem_cons]
      rintro (he | he)
      · exact (List.nodup_cons.mp (by simpa using hnd)).1 (he ▸ List.mem_map_of_mem idD hb)
      · exact hfresh b (List.mem_cons_of_mem _ hb) he

/-- The ids of the dedup result are pairwise distinct and avoid the seen set. -/
theorem dedupFirstAux_ids_nodup : ∀ (ms : List VMDict) (seen : List String),
    ((dedupFirstAux ms seen).map idD).Nodup ∧
      ∀ x ∈ (dedupFirstAux ms seen).map idD, x ∉ seen
  | [], _ => by simp [dedupFirstAux]
  | vm :: rest, seen => by
    simp only [dedupFirstAux]
    by_cases hmem : idD vm ∈ seen
    · rw [if_pos hmem]
      exact dedupFirstAux_ids_nodup rest seen
    · rw [if_neg hmem]
      obtain ⟨hnd, havoid⟩ := dedupFirstAux_ids_nodup rest (idD vm :: seen)
      refine ⟨?_, ?_⟩
      · simp only [List.map_cons, List.nodup_cons]
        refine ⟨fun hin => ?_, hnd⟩
        exact havoid _ hin (List.mem_cons_self _ _)
      · simp only [List.map_cons, List.mem_cons]
        rintro x (he | hx)
        · exact he ▸ hmem
        · intro hxs
          exact havoid x hx (List.mem_cons_of_mem _ hxs)

/-- Every input id survives into the dedup result (the first occurrence is
kept). -/
theorem mem_dedupFirstAux_ids : ∀ (ms : List VMDict) (seen : List String) (vm : VMDict),
    vm ∈ ms → idD vm ∉ seen → idD vm ∈ (dedupFirstAux ms seen).map idD
  | [], _, _, hvm, _ => by cases hvm
  | w :: rest, seen, vm, hvm, hns => by
    simp only [dedupFirstAux]
    by_cases hmem : idD w ∈ seen
    · rw [if_pos hmem]
      rcases List.mem_cons.mp hvm with he | hvm
      · subst he
        exact absurd hmem hns
      · exact mem_dedupFirstAux_ids rest seen vm hvm hns
    · rw [if_neg hmem]
      rcases List.mem_cons.mp hvm with he | hvm
      · simp [he]
      · by_cases heq : idD vm = idD w
        · simp [heq]
        · have : idD vm ∉ idD w :: seen := by
            simp only [List.mem_cons]
            rintro (h | h)
            · exact heq h
            · exact hns h
          simp only [List.map_cons, List.mem_cons]
          exact Or.inr (mem_dedupFirstAux_ids rest (idD w :: seen) vm hvm this)

/-- C1 (amended): on any input in which no snapshot id contains `"gcp"`
(case-insensitively) — so the demo-injection branch is not taken — `analyze`
returns exactly the input deduplicated by id, first occurrence kept, in input
order: the dedup is a sublist of the input (order preserved, nothing added,
every entry derived from an input snapshot), its ids are pairwise distinct,
and the first occurrence of every input id is retained.  The unamended claim
is false because of the GCP demo-injection branch (see the counterexample). -/
theorem claim_C1 (th : Thresholds) (ms : List VMDict)
    (hgcp : ms.any gcpMark = false)
    (hpres : ∀ vm ∈ ms, vm.id.isSome ∧ vm.type.isSome) :
    analyze th ms = .ok ((dedupFirst ms).map (classifyOne th))
  ∧ List.Sublist (dedupFirst ms) ms
  ∧ ((dedupFirst ms).map idD).Nodup
  ∧ (∀ vm ∈ ms, idD vm ∈ (dedupFirst ms).map idD) := by
  refine ⟨?_, dedupFirstAux_sublist ms [], (dedupFirstAux_ids_nodup ms []).1, ?_⟩
  · unfold analyze
    simp only [hgcp, Bool.false_eq_true, if_false]
    exact analyzeLoop_eq th ms [] hpres
  · intro vm hvm
    exact mem_dedupFirstAux_ids ms [] vm hvm (List.not_mem_nil _)

/-- C1 counterexample: the claim as stated (output = input deduplicated, no
entries added) fails on any GCP-marked input — one single input snapshot
yields five classified entries, because `analyze` injects four demo VMs. -/
theorem claim_C1_counterexample :
    Except.map List.length
      (analyze th0 [⟨some "gcp-x", some "e2-micro", some 50, some 50, some 1⟩]) = .ok 5
  ∧ ([(⟨some "gcp-x", some "e2-micro", some 50, some 50, some 1⟩ : VMDict)]).length = 1 :=
  ⟨rfl, rfl⟩

/-- C10 (amended): when some input id contains `"gcp"` (case-insensitively),
`analyze` discards every snapshot whose id does not contain `"gcp"` and
appends the four demo VMs before dedup-classification; provided no input id
collides with a demo id, the four demo classifications appear verbatim as the
suffix of the output (ids gcp-vm-demo-1..4).  When an input snapshot already
uses a demo id, the input occurrence wins the dedup and that demo
classification does not appear (see the counterexample).  When no input id
contains `"gcp"`, nothing is discarded and nothing is added. -/
theorem claim_C10 (th : Thresholds) (ms : List VMDict) :
    (ms.any gcpMark = true →
      (∀ vm ∈ ms.filter gcpFilter, vm.id.isSome ∧ vm.type.isSome) →
      (∀ d ∈ demoVMs, idD d ∉ (ms.filter gcpFilter).map idD) →
      analyze th ms =
        .ok ((dedupFirst (ms.filter gcpFilter)).map (classifyOne th) ++
          demoVMs.map (classifyOne th))
      ∧ (demoVMs.map (classifyOne th)).map ClassifiedVM.vm_id =
          ["gcp-vm-demo-1", "gcp-vm-demo-2", "gcp-vm-demo-3", "gcp-vm-demo-4"])
  ∧ (ms.any gcpMark = false →
      (∀ vm ∈ ms, vm.id.isSome ∧ vm.type.isSome) →
      analyze th ms = .ok ((dedupFirst ms).map (classifyOne th))) := by
  constructor
  · intro hany hpres hfresh
    have hdemo : ∀ d ∈ demoVMs, d.id.isSome ∧ d.type.isSome := by decide
    have hpres' : ∀ vm ∈ ms.filter gcpFilter ++ demoVMs, vm.id.isSome ∧ vm.type.isSome := by
      intro vm hvm
      rcases List.mem_append.mp hvm with h | h
      · exact hpres vm h
      · exact hdemo vm h
    constructor
    · unfold analyze
      simp only [hany, if_true]
      rw [analyzeLoop_eq th _ [] hpres']
      unfold dedupFirst
      have hfr : dedupFirstAux demoVMs (seenAfter (ms.filter gcpFilter) []) = demoVMs := by
        apply dedupFirstAux_fresh
        · decide
        · intro b hb hmem2
          rcases (mem_seenAfter (idD b) (ms.filter gcpFilter) []).mp hmem2 with h | h
          · exact absurd h (List.not_mem_nil _)
          · exact hfresh b hb h
      rw [dedupFirstAux_append, hfr, List.map_append]
    · rfl
  · intro hgcp hpres
    unfold analyze
    simp only [hgcp, Bool.false_eq_true, if_false]
    exact analyzeLoop_eq th ms [] hpres

/-- C10 counterexample: an input snapshot that already uses the id
`gcp-vm-demo-1` (with its own metrics, cpu = 50) wins the dedup against the
appended demo VM, so the demo classification (cpu = 5, underutilized) does
not appear in the output, contradicting "whose classifications appear in
the output". -/
theorem claim_C10_counterexample :
    Except.map (fun l => l.map (fun c => (c.vm_id, c.cpu, c.status)))
      (analyze th0 [⟨some "gcp-vm-demo-1", some "e2-small", some 50, some 50, some 5⟩]) =
    .ok [("gcp-vm-demo-1", (50 : ℚ), Status.optimal),
         ("gcp-vm-demo-2", (92 : ℚ), Status.overprovisioned),
         ("gcp-vm-demo-3", (95 : ℚ), Status.cpu_bottlenecked),
         ("gcp-vm-demo-4", (98 : ℚ), Status.overprovisioned)] := rfl

/-- C7 counterexample: the claim promises every snapshot with an unknown
family or unrecognized provider a valid status and a non-empty
recommendation, but in a GCP context such a snapshot is discarded outright
and receives nothing: with one gcp-marked and one azure snapshot, the output
ids contain no entry for `azure-vm-1`. -/
theorem claim_C7_counterexample :
    Except.map (fun l => l.map ClassifiedVM.vm_id)
      (analyze th0
        [⟨some "gcp-x", some "e2-micro", some 50, some 50, some 1⟩,
         ⟨some "azure-vm-1", some "Standard_D2", some 50, some 50, some 9⟩]) =
      .ok ["gcp-x", "gcp-vm-demo-1", "gcp-vm-demo-2", "gcp-vm-demo-3", "gcp-vm-demo-4"]
  ∧ "azure-vm-1" ∉
      ["gcp-x", "gcp-vm-demo-1", "gcp-vm-demo-2", "gcp-vm-demo-3", "gcp-vm-demo-4"] :=
  ⟨rfl, by decide⟩

/-- C7 (amended): suggestion lookup is total and safe for every snapshot that
is actually retained for classification: an "up" suggestion at the top tier
of a family yields the `"custom"` sentinel (the custom/larger-class hint),
never an out-of-range index; every entry of every successful run carries a
non-empty recommendation; and the classification of any single snapshot —
unknown family or unrecognized provider included — has a non-empty
recommendation.  (The unamended "every snapshot" fails only for snapshots
discarded by the GCP demo-injection filter; see the counterexample.) -/
theorem claim_C7 :
    (∀ (p : CloudProvider) (current : String) (fam : List String),
      instance_families p
          (if p = .gcp then splitHead current '-' else splitHead current '.') = some fam →
      current ∈ fam → strIdx fam current = fam.length - 1 →
      suggest_instance_type current "up" (some p) = some "custom")
  ∧ (∀ (th : Thresholds) (ms : List VMDict) (l : List ClassifiedVM),
      analyze th ms = .ok l → ∀ c ∈ l, c.recommendation ≠ "")
  ∧ (∀ (th : Thresholds) (vm : VMDict), (classifyOne th vm).recommendation ≠ "") := by
  refine ⟨?_, ?_, ?_⟩
  · intro p current fam hfam hmem hidx
    simp only [suggest_instance_type, hfam]
    rw [if_pos hmem]
    simp only [if_true]
    have hlt : ¬ strIdx fam current < fam.length - 1 := by
      rw [hidx]
      omega
    rw [if_neg hlt]
  · intro th ms l h c hc
    unfold analyze at h
    exact (analyzeLoop_entries th _ [] l h c hc).2
  · intro th vm
    exact statusRec_snd_ne th _ _ _ _

/-- C7 witness: the top tier of the gcp n1 family yields the custom hint, the
demo-4 style snapshot gets the custom-machine-type recommendation, and an
azure snapshot (unknown provider) classified alone still gets a non-empty
recommendation. -/
theorem claim_C7_witness :
    suggest_instance_type "n1-standard-8" "up" (some .gcp) = some "custom"
  ∧ (classifyOne th0
      ⟨some "gcp-vm-demo-4", some "n1-standard-8", some 98, some 90, some (240.80 : ℚ)⟩).recommendation =
      "High resource usage on n1-standard-8. Consider a custom machine type for further scaling."
  ∧ (classifyOne th0
      ⟨some "azure-vm-1", some "Standard_D2", some 50, some 50, some 9⟩).recommendation ≠ "" :=
  ⟨claim_C7.1 .gcp "n1-standard-8"
      ["n1-standard-1", "n1-standard-2", "n1-standard-4", "n1-standard-8"]
      rfl (by decide) (by decide),
   rfl,
   claim_C7.2.2 th0 _⟩

/-- C9 (amended): the provider is derived from the id by case-insensitive
substring inspection, but into `{gcp, aws, Unknown}` only: `"gcp"` wins over
`"aws"` when both occur, and every id without either marker — Azure-marked
ids included — yields `None` (Unknown). -/
theorem claim_C9 (vm_id : String) :
    (get_cloud_provider vm_id = some .gcp ↔ strHasSub (strLower vm_id) "gcp" = true)
  ∧ (get_cloud_provider vm_id = some .aws ↔
      (strHasSub (strLower vm_id) "gcp" = false ∧ strHasSub (strLower vm_id) "aws" = true))
  ∧ (get_cloud_provider vm_id = none ↔
      (strHasSub (strLower vm_id) "gcp" = false ∧ strHasSub (strLower vm_id) "aws" = false)) := by
  unfold get_cloud_provider
  by_cases h1 : strHasSub (strLower vm_id) "gcp" <;>
    by_cases h2 : strHasSub (strLower vm_id) "aws" <;>
      simp [h1, h2]

/-! ## Cost report lemmas (C4, C5, C6) -/

/-- Sum of the savings filter is a restatement of the per-snapshot loop. -/
theorem sumTypeCost_cons (vm : CostVM) (rest : List CostVM) (t : String) :
    sumTypeCost (vm :: rest) t =
      (if typeD vm = t then costD vm else 0) + sumTypeCost rest t := by
  unfold sumTypeCost
  rw [List.filter_cons]
  by_cases h : typeD vm = t
  · simp [h]
  · simp [h]

/-- Reading the breakdown after one `addToKey` update. -/
theorem bdLookup_addToKey : ∀ (cb : List (String × ℚ)) (k : String) (c : ℚ) (t : String),
    bdLookup (addToKey cb k c) t =
      if t = k then some ((bdLookup cb t).getD 0 + c) else bdLookup cb t
  | [], k, c, t => by
    by_cases h : t = k <;> simp [addToKey, bdLookup, h]
  | (k', v) :: rest, k, c, t => by
    by_cases hk : k' = k
    · rw [show addToKey ((k', v) :: rest) k c = (k', v + c) :: rest from by
        simp [addToKey, hk]]
      by_cases ht : t = k'
      · have htk : t = k := ht.trans hk
        simp [bdLookup, ht, htk, hk]
      · have htk : ¬ t = k := fun h => ht (h.trans hk.symm)
        simp [bdLookup, ht, htk, hk]
    · rw [show addToKey ((k', v) :: rest) k c = (k', v) :: addToKey rest k c from by
        simp [addToKey, hk]]
      by_cases ht : t = k'
      · have htk : ¬ t = k := fun h => hk (ht.symm.trans h)
        simp [bdLookup, ht, htk, hk]
      · simp only [bdLookup, if_neg ht]
        exact bdLookup_addToKey rest k c t

/-- The breakdown fold computes, for every type key, the exact cost sum of
the snapshots of that type. -/
theorem bdLookup_foldl : ∀ (ms : List CostVM) (cb : List (String × ℚ)) (t : String),
    bdLookup (ms.foldl bdStep cb) t =
      match bdLookup cb t with
      | some v => some (v + sumTypeCost ms t)
      | none => if t ∈ ms.map typeD then some (sumTypeCost ms t) else none
  | [], cb, t => by
    cases h : bdLookup cb t <;> simp [sumTypeCost, h]
  | vm :: rest, cb, t => by
    rw [List.foldl_cons, bdLookup_foldl rest (bdStep cb vm) t]
    have hstep : bdLookup (bdStep cb vm) t =
        if t = typeD vm then some ((bdLookup cb t).getD 0 + costD vm) else bdLookup cb t :=
      bdLookup_addToKey cb (typeD vm) (costD vm) t
    by_cases heq : t = typeD vm
    · have heq2 : typeD vm = t := heq.symm
      cases h : bdLookup cb t
      · have hs : bdLookup (bdStep cb vm) t = some (costD vm) := by
          rw [hstep, if_pos heq, h]
          simp
        simp only [hs, h, sumTypeCost_cons, if_pos heq2, List.map_cons, List.mem_cons]
        rw [if_pos (Or.inl heq)]
      · rename_i v
        have hs : bdLookup (bdStep cb vm) t = some (v + costD vm) := by
          rw [hstep, if_pos heq, h]
          simp
        simp only [hs, h, sumTypeCost_cons, if_pos heq2]
        congr 1
        ring
    · have heq2 : ¬ typeD vm = t := fun hh => heq hh.symm
      have hs : bdLookup (bdStep cb vm) t = bdLookup cb t := by
        rw [hstep, if_neg heq]
      cases h : bdLookup cb t
      · simp only [hs, h, sumTypeCost_cons, if_neg heq2, zero_add, List.map_cons,
          List.mem_cons]
        have hiff : (t = typeD vm ∨ t ∈ rest.map typeD) ↔ t ∈ rest.map typeD := by
          constructor
          · rintro (hh | hh)
            · exact absurd hh heq
            · exact hh
          · exact Or.inr
        rw [if_congr hiff rfl rfl]
      · simp only [hs, h, sumTypeCost_cons, if_neg heq2, zero_add]

/-- Keys after one `addToKey` update: unchanged on a hit, appended on a miss. -/
theorem addToKey_keys : ∀ (cb : List (String × ℚ)) (k : String) (c : ℚ),
    (addToKey cb k c).map Prod.fst =
      if k ∈ cb.map Prod.fst then cb.map Prod.fst else cb.map Prod.fst ++ [k]
  | [], k, c => by simp [addToKey]
  | (k', v) :: rest, k, c => by
    by_cases hk : k' = k
    · subst hk
      simp [addToKey]
    · simp only [addToKey, if_neg hk, List.map_cons, addToKey_keys rest k c,
        List.mem_cons]
      have : ¬ k = k' := fun h => hk h.symm
      by_cases hmem : k ∈ rest.map Prod.fst <;> simp [this, hmem]

/-- The first-appearance scan only depends on the seen set up to membership. -/
theorem dedupStrAux_congr : ∀ (l s1 s2 : List String),
    (∀ x, x ∈ s1 ↔ x ∈ s2) → dedupStrAux l s1 = dedupStrAux l s2
  | [], _, _, _ => rfl
  | t :: rest, s1, s2, h => by
    simp only [dedupStrAux]
    by_cases hmem : t ∈ s1
    · rw [if_pos hmem, if_pos ((h t).mp hmem)]
      exact dedupStrAux_congr rest s1 s2 h
    · rw [if_neg hmem, if_neg (fun hx => hmem ((h t).mpr hx))]
      congr 1
      apply dedupStrAux_congr rest (t :: s1) (t :: s2)
      intro x
      simp only [List.mem_cons]
      rw [h x]

/-- The breakdown keys are the type names in first-appearance order. -/
theorem bd_keys_foldl : ∀ (ms : List CostVM) (cb : List (String × ℚ)),
    (ms.foldl bdStep cb).map Prod.fst =
      cb.map Prod.fst ++ dedupStrAux (ms.map typeD) (cb.map Prod.fst)
  | [], cb => by simp [dedupStrAux]
  | vm :: rest, cb => by
    rw [List.foldl_cons, bd_keys_foldl rest (bdStep cb vm), List.map_cons]
    simp only [dedupStrAux, bdStep]
    rw [addToKey_keys]
    by_cases hmem : typeD vm ∈ cb.map Prod.fst
    · rw [if_pos hmem, if_pos hmem]
    · rw [if_neg hmem, if_neg hmem]
      rw [dedupStrAux_congr (rest.map typeD)
        (cb.map Prod.fst ++ [typeD vm]) (typeD vm :: cb.map Prod.fst)
        (by intro x; simp [List.mem_append, List.mem_cons]; tauto)]
      simp

/-- Stable insertion permutes. -/
theorem insDesc_perm : ∀ (x : Driver) (l : List Driver),
    List.Perm (insDesc x l) (x :: l)
  | _, [] => List.Perm.refl _
  | x, y :: ys => by
    simp only [insDesc]
    by_cases h : x.cost ≥ y.cost
    · rw [if_pos h]
    · rw [if_neg h]
      exact ((insDesc_perm x ys).cons y).trans (List.Perm.swap x y ys)

/-- The stable descending sort permutes its input. -/
theorem sortDesc_perm : ∀ (l : List Driver), List.Perm (sortDesc l) l
  | [] => List.Perm.refl _
  | x :: xs => (insDesc_perm x (sortDesc xs)).trans ((sortDesc_perm xs).cons x)

/-- Stable insertion preserves descending order. -/
theorem insDesc_sorted : ∀ (x : Driver) (l : List Driver),
    l.Pairwise (fun a b => b.cost ≤ a.cost) →
    (insDesc x l).Pairwise (fun a b => b.cost ≤ a.cost)
  | _, [], _ => by simp [insDesc]
  | x, y :: ys, h => by
    obtain ⟨hy, hys⟩ := List.pairwise_cons.mp h
    simp only [insDesc]
    by_cases hge : x.cost ≥ y.cost
    · rw [if_pos hge]
      refine List.pairwise_cons.mpr ⟨?_, h⟩
      intro z hz
      rcases List.mem_cons.mp hz with he | hz
      · exact he ▸ hge
      · exact le_trans (hy z hz) hge
    · rw [if_neg hge]
      refine List.pairwise_cons.mpr ⟨?_, insDesc_sorted x ys hys⟩
      intro z hz
      rcases List.mem_cons.mp ((insDesc_perm x ys).mem_iff.mp hz) with he | hz
      · exact he ▸ le_of_lt (lt_of_not_ge hge)
      · exact hy z hz
  termination_by _ l => l.length

/-- The stable descending sort is descending. -/
theorem sortDesc_sorted : ∀ (l : List Driver),
    (sortDesc l).Pairwise (fun a b => b.cost ≤ a.cost)
  | [] => List.Pairwise.nil
  | x :: xs => insDesc_sorted x (sortDesc xs) (sortDesc_sorted xs)

/-- The tagged insertion projects to the untagged one. -/
theorem map_snd_insDescT : ∀ (x : ℕ × Driver) (l : List (ℕ × Driver)),
    (insDescT x l).map Prod.snd = insDesc x.2 (l.map Prod.snd)
  | _, [] => rfl
  | x, y :: ys => by
    simp only [insDescT, List.map_cons, insDesc]
    by_cases h : x.2.cost ≥ y.2.cost
    · rw [if_pos h, if_pos h]
      rfl
    · rw [if_neg h, if_neg h, List.map_cons, map_snd_insDescT x ys]

/-- The tagged sort projects to the untagged one. -/
theorem map_snd_sortDescT : ∀ (l : List (ℕ × Driver)),
    (sortDescT l).map Prod.snd = sortDesc (l.map Prod.snd)
  | [] => rfl
  | x :: xs => by
    show (insDescT x (sortDescT xs)).map Prod.snd =
      insDesc x.2 (sortDesc (xs.map Prod.snd))
    rw [map_snd_insDescT, map_snd_sortDescT xs]

/-- The tagged insertion permutes. -/
theorem insDescT_perm : ∀ (x : ℕ × Driver) (l : List (ℕ × Driver)),
    List.Perm (insDescT x l) (x :: l)
  | _, [] => List.Perm.refl _
  | x, y :: ys => by
    simp only [insDescT]
    by_cases h : x.2.cost ≥ y.2.cost
    · rw [if_pos h]
    · rw [if_neg h]
      exact ((insDescT_perm x ys).cons y).trans (List.Perm.swap x y ys)

/-- The tagged sort permutes. -/
theorem sortDescT_perm : ∀ (l : List (ℕ × Driver)), List.Perm (sortDescT l) l
  | [] => List.Perm.refl _
  | x :: xs => (insDescT_perm x (sortDescT xs)).trans ((sortDescT_perm xs).cons x)

/-- Inserting an element with a fresh smaller tag keeps the stability order:
a run sorted by `relT` stays sorted. -/
theorem insDescT_sorted : ∀ (x : ℕ × Driver) (l : List (ℕ × Driver)),
    l.Pairwise relT → (∀ y ∈ l, x.1 < y.1) → (insDescT x l).Pairwise relT
  | _, [], _, _ => by simp [insDescT]
  | x, y :: ys, h, htag => by
    obtain ⟨hy, hys⟩ := List.pairwise_cons.mp h
    simp only [insDescT]
    by_cases hge : x.2.cost ≥ y.2.cost
    · rw [if_pos hge]
      refine List.pairwise_cons.mpr ⟨?_, h⟩
      intro z hz
      rcases List.mem_cons.mp hz with he | hz
      · subst he
        rcases lt_or_eq_of_le hge with hlt | heq
        · exact Or.inl hlt
        · exact Or.inr ⟨heq.symm, htag z (List.mem_cons_self _ _)⟩
      · have hzy := hy z hz
        have hzc : z.2.cost ≤ y.2.cost := by
          rcases hzy with hlt | ⟨heq, _⟩
          · exact le_of_lt hlt
          · exact le_of_eq heq.symm
        rcases lt_or_eq_of_le (le_trans hzc hge) with hlt | heq
        · exact Or.inl hlt
        · exact Or.inr ⟨heq.symm, htag z (List.mem_cons_of_mem _ hz)⟩
    · rw [if_neg hge]
      refine List.pairwise_cons.mpr ⟨?_, ?_⟩
      · intro z hz
        rcases List.mem_cons.mp ((insDescT_perm x ys).mem_iff.mp hz) with he | hz
        · exact he ▸ Or.inl (lt_of_not_ge hge)
        · exact hy z hz
      · exact insDescT_sorted x ys hys
          (fun z hz => htag z (List.mem_cons_of_mem _ hz))
  termination_by _ l => l.length

/-- A tagged list with strictly increasing tags sorts into a `relT`-sorted
run: descending by cost with ties in original tag order (stability). -/
theorem sortDescT_sorted : ∀ (l : List (ℕ × Driver)),
    (l.map Prod.fst).Pairwise (· < ·) → (sortDescT l).Pairwise relT
  | [], _ => List.Pairwise.nil
  | x :: xs, h => by
    rw [List.map_cons] at h
    obtain ⟨hx, hxs⟩ := List.pairwise_cons.mp h
    show (insDescT x (sortDescT xs)).Pairwise relT
    apply insDescT_sorted x (sortDescT xs) (sortDescT_sorted xs hxs)
    intro y hy
    exact hx y.1 (List.mem_map_of_mem Prod.fst ((sortDescT_perm xs).mem_iff.mp hy))

/-- The savings sum factors as 0.3 times the cost sum of the filtered VMs. -/
theorem potentialSavings_eq (ms : List CostVM) :
    potentialSavings ms = (3 / 10 : ℚ) * ((ms.filter underutilBool).map costD).sum := by
  unfold potentialSavings
  rw [List.sum_map_mul_right, mul_comm]

/-- A filtered cost sum never exceeds the full cost sum when costs are
non-negative. -/
theorem sum_costD_filter_le (p : CostVM → Bool) : ∀ (ms : List CostVM),
    (∀ vm ∈ ms, 0 ≤ costD vm) →
    ((ms.filter p).map costD).sum ≤ (ms.map costD).sum
  | [], _ => le_refl _
  | vm :: rest, h => by
    have hrest := sum_costD_filter_le p rest fun v hv => h v (List.mem_cons_of_mem _ hv)
    rw [List.filter_cons]
    by_cases hp : p vm
    · rw [if_pos hp, List.map_cons, List.map_cons, List.sum_cons, List.sum_cons]
      exact add_le_add_left hrest _
    · rw [if_neg hp, List.map_cons, List.sum_cons]
      exact le_trans hrest (le_add_of_nonneg_left (h vm (List.mem_cons_self _ _)))

/-- The optimization-savings field of the cost report, as a function of the
savings sum, the total and the affected count. -/
theorem gcr_osav (ms : List CostVM) :
    (generate_cost_report ms).optimization_savings =
      if potentialSavings ms > 0 then
        some { amount := potentialSavings ms,
               percentage :=
                 if totalOf ms > 0 then potentialSavings ms / totalOf ms * 100 else 0,
               vms_affected := (ms.filter underutilBool).length }
      else none := by
  rcases ms with _ | ⟨v, rest⟩
  · have h0 : potentialSavings ([] : List CostVM) = 0 := rfl
    show none = if potentialSavings ([] : List CostVM) > 0 then _ else none
    rw [h0]
    norm_num
  · rfl

/-- C4: exactly the snapshots with `cpu < 30` and `memory < 30` (keys read
with default 0) contribute `0.30 × cost` to `potential_savings`; when the
savings are positive, `optimization_savings` carries that amount, the
percentage of the total (the total is then positive, since costs are
non-negative per the data model), and the affected count; and the field is
`null` whenever no snapshot passes the filter. -/
theorem claim_C4 (ms : List CostVM) (hnn : ∀ vm ∈ ms, 0 ≤ costD vm) :
    ((∀ vm ∈ ms, ¬(vm.cpu.getD 0 < 30 ∧ vm.memory.getD 0 < 30)) →
      (generate_cost_report ms).optimization_savings = none)
  ∧ (potentialSavings ms > 0 →
      (generate_cost_report ms).optimization_savings =
        some { amount := potentialSavings ms,
               percentage := potentialSavings ms / totalOf ms * 100,
               vms_affected := (ms.filter underutilBool).length })
  ∧ potentialSavings ms = (3 / 10 : ℚ) * ((ms.filter underutilBool).map costD).sum := by
  refine ⟨?_, ?_, potentialSavings_eq ms⟩
  · intro hno
    rw [gcr_osav]
    have hfil : ms.filter underutilBool = [] := by
      rw [List.filter_eq_nil_iff]
      intro vm hvm
      simp only [underutilBool, Bool.and_eq_true, decide_eq_true_eq, not_and]
      intro h1 h2
      exact hno vm hvm ⟨h1, h2⟩
    have hps : potentialSavings ms = 0 := by
      unfold potentialSavings
      rw [hfil]
      rfl
    rw [hps]
    norm_num
  · intro hpos
    rw [gcr_osav, if_pos hpos]
    have hsum : (0 : ℚ) < ((ms.filter underutilBool).map costD).sum := by
      have := potentialSavings_eq ms
      nlinarith [hpos, this]
    have htot : totalOf ms > 0 :=
      lt_of_lt_of_le hsum (sum_costD_filter_le underutilBool ms hnn)
    rw [if_pos htot]

/-- C4 witness: a single snapshot with `cpu = 10, memory = 10, cost = 100`
drives positive savings of 30 (30% of the total). -/
theorem claim_C4_witness :
    (generate_cost_report msC4).optimization_savings =
      some { amount := potentialSavings msC4,
             percentage := potentialSavings msC4 / totalOf msC4 * 100,
             vms_affected := (msC4.filter underutilBool).length } :=
  ((claim_C4 msC4 (by
    intro vm hvm
    norm_num [msC4] at hvm
    subst hvm
    norm_num [costD])).2.1
    (by norm_num [potentialSavings, msC4, underutilBool, costD]))

/-- The total of the dashboard cost report is the plain cost sum of the raw
metrics. -/
theorem totalOf_raw (ms : List VMDict) :
    totalOf (ms.map rawToCostVM) = (ms.map (fun vm => vm.cost.getD 0)).sum := by
  unfold totalOf
  rw [List.map_map]
  rfl

/-- C5 counterexample: the cost report performs no dedup — two snapshots
sharing one id are both counted (total 20), while the sum over the
deduplicated snapshots is 10. -/
theorem claim_C5_counterexample :
    (dashboard_cost_report
      [⟨some "aws-a", some "t2.micro", some 50, some 50, some 10⟩,
       ⟨some "aws-a", some "t2.micro", some 50, some 50, some 10⟩]).total_monthly_cost = 20
  ∧ ((dedupFirst
      [⟨some "aws-a", some "t2.micro", some 50, some 50, some 10⟩,
       ⟨some "aws-a", some "t2.micro", some 50, some 50, some 10⟩]).map
        (fun vm => vm.cost.getD 0)).sum = 10 :=
  ⟨by with_unfolding_all rfl, by with_unfolding_all rfl⟩

/-- C5 (amended): `total_monthly_cost` is the sum of `cost` over the snapshot
list exactly as passed — duplicates by id are counted at every occurrence,
because `generate_cost_report` never deduplicates — and the empty input
yields the all-zero report, never an error. -/
theorem claim_C5 (ms : List VMDict) :
    (dashboard_cost_report ms).total_monthly_cost = (ms.map (fun vm => vm.cost.getD 0)).sum
  ∧ dashboard_cost_report [] =
      { total_monthly_cost := 0, optimization_savings := none,
        cost_breakdown := [], top_cost_drivers := [] } := by
  refine ⟨?_, rfl⟩
  rcases ms with _ | ⟨v, rest⟩
  · rfl
  · exact totalOf_raw (v :: rest)

/-- C6: the cost breakdown maps every type key (in first-appearance order) to
the exact cost sum of the snapshots of that type, and `top_cost_drivers` is
the stable descending sort of all `{vm_id, cost}` pairs truncated to five:
it is a permutation prefix, sorted descending by cost, and — via the
index-tagged sort, which projects onto it — ties are kept in original input
order. -/
theorem claim_C6 (ms : List CostVM) :
    (∀ t, bdLookup (generate_cost_report ms).cost_breakdown t =
        (if t ∈ ms.map typeD then some (sumTypeCost ms t) else none))
  ∧ (generate_cost_report ms).cost_breakdown.map Prod.fst = dedupStr (ms.map typeD)
  ∧ (generate_cost_report ms).top_cost_drivers = (sortDesc (driversOf ms)).take 5
  ∧ (generate_cost_report ms).top_cost_drivers.length ≤ 5
  ∧ List.Perm (sortDesc (driversOf ms)) (driversOf ms)
  ∧ (sortDesc (driversOf ms)).Pairwise (fun a b => b.cost ≤ a.cost)
  ∧ (sortDescT ((driversOf ms).enum)).map Prod.snd = sortDesc (driversOf ms)
  ∧ (sortDescT ((driversOf ms).enum)).Pairwise relT := by
  have henum : (((driversOf ms).enum).map Prod.fst).Pairwise (· < ·) := by
    rw [List.enum_map_fst]
    exact List.pairwise_lt_range _
  have hmapsnd : (sortDescT ((driversOf ms).enum)).map Prod.snd = sortDesc (driversOf ms) := by
    rw [map_snd_sortDescT, List.enum_map_snd]
  rcases ms with _ | ⟨v, rest⟩
  · exact ⟨fun t => rfl, rfl, rfl, by simp [generate_cost_report],
      List.Perm.refl _, List.Pairwise.nil, hmapsnd, sortDescT_sorted _ henum⟩
  · refine ⟨?_, ?_, rfl, List.length_take_le _ _, sortDesc_perm _,
      sortDesc_sorted _, hmapsnd, sortDescT_sorted _ henum⟩
    · intro t
      show bdLookup ((v :: rest).foldl bdStep []) t = _
      rw [bdLookup_foldl]
      rfl
    · show ((v :: rest).foldl bdStep []).map Prod.fst = _
      rw [bd_keys_foldl]
      rfl

/-- C1 witness: a run with a duplicated id, no gcp marker: the dedup equation
and its order/derivation properties at a concrete input. -/
theorem claim_C1_witness :
    analyze th0 msC1w = .ok ((dedupFirst msC1w).map (classifyOne th0))
  ∧ List.Sublist (dedupFirst msC1w) msC1w
  ∧ ((dedupFirst msC1w).map idD).Nodup
  ∧ (∀ vm ∈ msC1w, idD vm ∈ (dedupFirst msC1w).map idD) :=
  claim_C1 th0 msC1w (by decide) (by decide)

/-- C10 witness: a gcp-marked input with no demo-id collision: the output is
the classified filtered input followed by the four demo classifications. -/
theorem claim_C10_witness :
    analyze th0 msC10w =
      .ok ((dedupFirst (msC10w.filter gcpFilter)).map (classifyOne th0) ++
        demoVMs.map (classifyOne th0))
  ∧ (demoVMs.map (classifyOne th0)).map ClassifiedVM.vm_id =
      ["gcp-vm-demo-1", "gcp-vm-demo-2", "gcp-vm-demo-3", "gcp-vm-demo-4"] :=
  (claim_C10 th0 msC10w).1 (by decide) (by decide) (by decide)

/-- C3 counterexample: with an enhancer supplied, when the insights call
returns malformed JSON and the recommendations call succeeds, the final
insights field is the AI layer internal static default — health 7 but three
opportunities and "15-25%" potential — not the claimed recommender baseline
(two opportunities, "10-20%"); and when the AI service is absent the
rendered report carries null `future_insights` and `optimization_plan`
fields, contradicting "never a null field". -/
theorem claim_C3_counterexample :
    (dashboardReport true (.ok [cSample]) .badJson .err .err [mSample] []).insights =
      aiInsightsBadJson
  ∧ (dashboardReport true (.ok [cSample]) .badJson .err .err [mSample] []).recommendations =
      [cSample]
  ∧ aiInsightsBadJson.cost_optimization_potential = "15-25%"
  ∧ aiInsightsBadJson.optimization_opportunities.length = 3
  ∧ basicInsights.cost_optimization_potential = "10-20%"
  ∧ basicInsights.optimization_opportunities.length = 2
  ∧ aiInsightsBadJson ≠ basicInsights
  ∧ (dashboardReport false (.ok [cSample]) .badJson .err .err [mSample] []).future_insights =
      none
  ∧ (dashboardReport false (.ok [cSample]) .badJson .err .err [mSample] []).optimization_plan =
      none := by
  refine ⟨rfl, rfl, rfl, rfl, rfl, rfl, ?_, rfl, rfl⟩
  intro h
  exact absurd (congrArg Insights.cost_optimization_potential h) (by decide)

/-- C3 (amended): the dashboard makes four enhancer calls (recommendations,
insights, future trends, optimization plan); the cost report is always the
deterministic one and never consults the enhancer.  Each field depends only
on its own call, so a failure affects no sibling, and the assembly is total
(never a crash).  On malformed JSON or transport error the insights field
falls back to the AI layer internal defaults (`aiInsightsBadJson`,
`aiInsightsErr`), while the recommender baseline (`basicInsights`, the
claimed "10-20%" object) is used exactly when the AI service is absent (or
metrics are empty); with the AI service absent, `future_insights` and
`optimization_plan` are null. -/
theorem claim_C3 (ai : Bool)
    (rEnh rEnh' : AIResp (List ClassifiedVM)) (rIns rIns' : AIResp Insights)
    (rTr rTr' : AIResp Trends) (rPl rPl' : AIResp Plan)
    (metrics : List VMDict) (analysis : List ClassifiedVM) :
    (dashboardReport ai rEnh rIns rTr rPl metrics analysis).recommendations =
      (dashboardReport ai rEnh rIns' rTr' rPl' metrics analysis).recommendations
  ∧ (dashboardReport ai rEnh rIns rTr rPl metrics analysis).insights =
      (dashboardReport ai rEnh' rIns rTr' rPl' metrics analysis).insights
  ∧ (dashboardReport ai rEnh rIns rTr rPl metrics analysis).future_insights =
      (dashboardReport ai rEnh' rIns' rTr rPl' metrics analysis).future_insights
  ∧ (dashboardReport ai rEnh rIns rTr rPl metrics analysis).optimization_plan =
      (dashboardReport ai rEnh' rIns' rTr' rPl metrics analysis).optimization_plan
  ∧ (dashboardReport ai rEnh rIns rTr rPl metrics analysis).cost_report =
      dashboard_cost_report metrics
  ∧ (ai = true → metrics ≠ [] →
      ((rIns = .badJson →
          (dashboardReport ai rEnh rIns rTr rPl metrics analysis).insights =
            aiInsightsBadJson)
        ∧ (rIns = .err →
          (dashboardReport ai rEnh rIns rTr rPl metrics analysis).insights = aiInsightsErr)
        ∧ (∀ l, rEnh = .ok l →
          (dashboardReport ai rEnh rIns rTr rPl metrics analysis).recommendations = l)
        ∧ (rEnh = .badJson →
          (dashboardReport ai rEnh rIns rTr rPl metrics analysis).recommendations =
            analysis)))
  ∧ (ai = false →
      (dashboardReport ai rEnh rIns rTr rPl metrics analysis).future_insights = none ∧
      (dashboardReport ai rEnh rIns rTr rPl metrics analysis).optimization_plan = none ∧
      (dashboardReport ai rEnh rIns rTr rPl metrics analysis).insights = basicInsights ∧
      (dashboardReport ai rEnh rIns rTr rPl metrics analysis).recommendations = analysis)
  ∧ (ai = true →
      (dashboardReport ai rEnh rIns rTr rPl metrics analysis).future_insights =
        some (ai_predict_future_trends rTr metrics) ∧
      (dashboardReport ai rEnh rIns rTr rPl metrics analysis).optimization_plan =
        some (ai_generate_optimization_plan rPl)) := by
  refine ⟨rfl, rfl, rfl, rfl, rfl, ?_, ?_, ?_⟩
  · intro hai hm
    subst hai
    rcases metrics with _ | ⟨m, rest⟩
    · exact absurd rfl hm
    · refine ⟨?_, ?_, ?_, ?_⟩
      · intro h
        subst h
        rfl
      · intro h
        subst h
        rfl
      · intro l h
        subst h
        rfl
      · intro h
        subst h
        rfl
  · intro hai
    subst hai
    exact ⟨rfl, rfl, rfl, rfl⟩
  · intro hai
    subst hai
    exact ⟨rfl, rfl⟩

/-- C3 witness: the amended fallback behavior at a concrete run — malformed
insights JSON with failed recommendations over one snapshot. -/
theorem claim_C3_witness :
    (dashboardReport true .badJson .badJson .err .err [mSample] [cSample]).insights =
      aiInsightsBadJson
  ∧ (dashboardReport true .badJson .badJson .err .err [mSample] [cSample]).recommendations =
      [cSample] := by
  have h := (claim_C3 true .badJson .badJson .badJson .badJson .err .err .err .err
    [mSample] [cSample]).2.2.2.2.2.1 rfl (by simp)
  exact ⟨h.1 rfl, h.2.2.2 rfl⟩

end InsightMesh
